import Mathlib

/-!
Verification development for the opslane alert actionability engine.

The definitions below are a shallow embedding of the Python sources under
backend/app: the Slack feedback recording path (slack.py,
slack/handlers/action_handlers.py, services/alert.py), the trained
classifier (ml/alert_classifier.py), feature engineering (ml/utils.py),
the structured-output retry wrapper (agents/base.py), the LLM prediction
service (ml/services/prediction.py), and the rule-based scorer described
in the design document (the scorer itself is not part of the checked-in
sources, so it is modelled from the specification text).

Python exceptions are modelled as Except.error; dictionaries read by the
engine are modelled as structures over the fields the code accesses, or as
association lists where the code iterates over keys; floats are modelled
as rationals except where the code uses logarithms and exponentials, which
are modelled over the reals.
-/

namespace Opslane

/-! Feedback recording (slack.py lines 597-663, action_handlers.py lines
80-117, services/alert.py lines 307-337). -/

/-- Noisy-label derivation of slack.py handle_feedback (lines 616-618).
classification is the label string previously shown in the Slack message
("Actionable" or "Potentially Noisy", built at lines 246-250) and
is_positive records a thumbs-up (true) or thumbs-down (false). -/
def handle_feedback_is_noisy (classification : String) (is_positive : Bool) : Bool :=
  (classification == "Actionable" && !is_positive) ||
  (classification == "Potentially Noisy" && is_positive)

/-- Noisy-label derivation of slack/handlers/action_handlers.py
handle_feedback (lines 97-101), where classification is the boolean
is_actionable decoded from the button value. The trailing `or False` of
the source is the identity on Bool. -/
def action_handler_is_noisy (classification : Bool) (is_positive : Bool) : Bool :=
  ((!classification && is_positive) || (classification && !is_positive)) || false

/-- Engine-owned mutable state of an AlertConfiguration row: the noisy
flag and the optional free-text reason (db/models/alert.py). -/
structure AlertConfigState where
  is_noisy : Bool
  noisy_reason : Option String
  deriving DecidableEq, Repr

/-- Embedding of services/alert.py mark_alert_configuration_as_noisy
(lines 321-337). found models whether the select by provider_id returned
a configuration; when nothing is found the row state is unchanged (the
source logs a warning and returns None). When found, both fields are
written in one commit, and the supplied reason is kept only when the
configuration is being marked noisy. -/
def mark_alert_configuration_as_noisy (found : Bool) (cfg : AlertConfigState)
    (is_noisy : Bool) (reason : Option String) : AlertConfigState :=
  if found then
    { is_noisy := is_noisy, noisy_reason := if is_noisy then reason else none }
  else cfg

/-- Reason string built by slack.py handle_feedback (line 624): the
wording is chosen from is_positive, the direction of the thumb. -/
def feedback_reason (is_positive : Bool) : String :=
  "User feedback: " ++ (if is_positive then "not noisy" else "noisy")

/-- State update of the owning AlertConfiguration performed by slack.py
handle_feedback (lines 616-625) through update_alert_metadata (line 655)
and mark_alert_configuration_as_noisy. -/
def handle_feedback (found : Bool) (cfg : AlertConfigState)
    (classification : String) (is_positive : Bool) : AlertConfigState :=
  mark_alert_configuration_as_noisy found cfg
    (handle_feedback_is_noisy classification is_positive)
    (some (feedback_reason is_positive))

/-! Feature engineering (ml/utils.py). -/

/-- Severity levels of schemas/alert.py SeverityLevel. -/
inductive SeverityLevel
  | low
  | medium
  | high
  | critical
  deriving DecidableEq, Repr

/-- Embedding of ml/utils.py map_severity (lines 12-20). The dict lookup
carries default 0, which is unreachable for the four-valued enum. -/
def map_severity : SeverityLevel → ℚ
  | SeverityLevel.critical => 4
  | SeverityLevel.high => 3
  | SeverityLevel.medium => 2
  | SeverityLevel.low => 1

/-- Document returned by the Slack vector store, projected to the one
metadata field read by get_avg_slack_responses: metadata.get with default
the empty list (ml/utils.py line 49). -/
structure SlackDoc where
  thread_messages : Option (List String)
  deriving DecidableEq, Repr

/-- Embedding of ml/utils.py search_similar_alerts (lines 23-37): the
vector-store similarity search is passed in as a function from the query
string and k to scored documents. -/
def search_similar_alerts (search : String → Nat → List (SlackDoc × ℚ))
    (query : String) (k : Nat) : List (SlackDoc × ℚ) :=
  search query k

/-- Embedding of ml/utils.py get_avg_slack_responses (lines 40-51): the
average thread length over the 5 most similar alerts, and 0.0 when the
search returns no results. -/
def get_avg_slack_responses (search : String → Nat → List (SlackDoc × ℚ))
    (alert_string : String) : ℚ :=
  let similar_alerts := search_similar_alerts search alert_string 5
  if similar_alerts = [] then 0
  else
    let total_responses : ℚ :=
      (similar_alerts.map (fun a => ((a.1.thread_messages.getD []).length : ℚ))).sum
    total_responses / (similar_alerts.length : ℚ)

/-- Creation timestamp projected to the two accessors engineer_features
reads (hour and weekday). -/
structure Timestamp where
  hour : Nat
  weekday : Nat

/-- Fields of the alert dict read by engineer_features and classify. -/
structure AlertIn where
  title : String
  description : Option String
  severity : SeverityLevel
  is_noisy : Option Bool
  created_at : Option Timestamp

/-- Fields of the alert-configuration statistics dict read by
engineer_features. -/
structure StatsIn where
  unique_open_alerts : ℚ
  average_duration_seconds : ℚ
  noisy_alerts_count : ℚ

/-- Embedding of ml/utils.py engineer_features (lines 54-70), returning
the feature dict as an association list in insertion order. The boolean
is_noisy feature is stored as 0 or 1, matching its numeric use by the
model. -/
def engineer_features (search : String → Nat → List (SlackDoc × ℚ))
    (alert : AlertIn) (alert_stats : StatsIn) : List (String × ℚ) :=
  let alert_string := alert.title ++ " " ++ alert.description.getD ""
  [("severity_score", map_severity alert.severity),
   ("unique_open_alerts", alert_stats.unique_open_alerts),
   ("avg_resolution_time", alert_stats.average_duration_seconds),
   ("is_noisy", if alert.is_noisy.getD false then 1 else 0),
   ("noisy_alerts_count", alert_stats.noisy_alerts_count),
   ("occurrence_frequency", alert_stats.unique_open_alerts),
   ("time_of_day", match alert.created_at with
     | some t => (t.hour : ℚ)
     | none => 0),
   ("day_of_week", match alert.created_at with
     | some t => (t.weekday : ℚ)
     | none => 0),
   ("alert_title_length", (alert.title.length : ℚ)),
   ("avg_slack_responses", get_avg_slack_responses search alert_string)]

/-- Python dict lookup d[k] over an association list; none models a
raised KeyError. -/
def dictLookup (d : List (String × ℚ)) (k : String) : Option ℚ :=
  (d.find? (fun p => p.1 == k)).map Prod.snd

/-! Trained classifier (ml/alert_classifier.py). -/

/-- SHAP explainer behaviour: shap_values may raise (Except.error), and
expected_value is the scalar baseline (the source takes the second entry
when the library hands back a pair; the already-extracted scalar is
modelled). -/
structure ExplainerData where
  shap_values : List ℚ → Except String (List ℚ)
  expected_value : ℚ

/-- Loaded model artifact: the expected feature column names, the
predict_proba call (which may raise), and the result of attempting to
build a SHAP TreeExplainer on it — none models the constructor raising
because the model is not tree-based. -/
structure MLModel where
  feature_names_in : List String
  predict_proba : List ℚ → Except String (List ℚ)
  tree_explainer : Option ExplainerData

/-- Filesystem view of the model artifact file alert_classifier_model.joblib:
whether os.path.exists is true, its modification time, and the outcome of
joblib.load (none models the load raising). -/
structure ModelFile where
  present : Bool
  mtime : Nat
  load : Option MLModel

/-- Instance state of AlertClassifier: self.model, self.last_loaded_time,
self.explainer, and the confidence threshold taken from settings. -/
structure ClassifierState where
  model : Option MLModel
  last_loaded_time : Nat
  explainer : Option ExplainerData
  threshold : ℚ

/-- Embedding of AlertClassifier._load_model (lines 25-41): reload only
when the file exists and its mtime advanced; a failed load clears the
model; a missing file clears the model; an up-to-date file leaves the
state untouched. -/
def load_model (fs : ModelFile) (st : ClassifierState) : ClassifierState :=
  if fs.present then
    if st.last_loaded_time < fs.mtime then
      match fs.load with
      | some m => { st with model := some m, last_loaded_time := fs.mtime }
      | none => { st with model := none }
    else st
  else { st with model := none }

/-- Embedding of AlertClassifier._initialize_explainer (lines 43-46):
build the TreeExplainer when a model is loaded and no explainer exists
yet; the constructor raising is modelled by tree_explainer = none. -/
def init_explainer (st : ClassifierState) : Except String ClassifierState :=
  match st.model, st.explainer with
  | some m, none =>
    match m.tree_explainer with
    | some ex => Except.ok { st with explainer := some ex }
    | none => Except.error "TreeExplainer not applicable to the loaded model"
  | _, _ => Except.ok st

/-- Explanation payload of _explain_prediction: either the empty dict
(returned when no explainer is available) or the SHAP payload with the
importance map sorted by descending magnitude, the baseline, and the top
3 contributors. -/
inductive Explanation
  | empty
  | shap (feature_importance : List (String × ℚ)) (base_value : ℚ)
      (top_contributors : List String)
  deriving DecidableEq, Repr

/-- Python abs on a rational. -/
def pyabs (q : ℚ) : ℚ := if q < 0 then -q else q

/-- Stable insertion into a sorted list: x goes before the first element
it need not follow. -/
def insert_sorted (le : String × ℚ → String × ℚ → Bool) (x : String × ℚ) :
    List (String × ℚ) → List (String × ℚ)
  | [] => [x]
  | y :: ys => if le x y then x :: y :: ys else y :: insert_sorted le x ys

/-- Stable sort by descending absolute value of the second component,
matching Python sorted with key abs and reverse=True (lines 139-143). -/
def sort_by_abs_desc (l : List (String × ℚ)) : List (String × ℚ) :=
  l.foldr (insert_sorted (fun a b => decide (pyabs b.2 ≤ pyabs a.2))) []

/-- Embedding of AlertClassifier._explain_prediction (lines 122-150).
None of its failure paths is caught by the caller: a failing TreeExplainer
construction, a missing feature key, a raising shap_values call, or a
too-short shap vector all surface as exceptions. The updated explainer
state is returned alongside the outcome. -/
def explain_prediction (st : ClassifierState) (features : List (String × ℚ)) :
    ClassifierState × Except String Explanation :=
  match init_explainer st with
  | Except.error e => (st, Except.error e)
  | Except.ok st1 =>
    match st1.explainer with
    | none => (st1, Except.ok Explanation.empty)
    | some ex =>
      match st1.model with
      | none => (st1, Except.error "AttributeError: NoneType has no feature_names_in_")
      | some m =>
        match m.feature_names_in.mapM (dictLookup features) with
        | none => (st1, Except.error "KeyError: feature missing from features dict")
        | some feature_values =>
          match ex.shap_values feature_values with
          | Except.error e => (st1, Except.error e)
          | Except.ok shap_vals =>
            if m.feature_names_in.length ≤ shap_vals.length then
              let fi := m.feature_names_in.zip (shap_vals.map (fun v => pyabs v))
              let sorted_features := sort_by_abs_desc fi
              (st1, Except.ok (Explanation.shap sorted_features ex.expected_value
                ((sorted_features.map Prod.fst).take 3)))
            else (st1, Except.error "IndexError: shap values shorter than features")

/-- Result dict shape returned by AlertClassifier.classify. error is the
optional "error" key; is_actionable is the string value the source stores
(str of a Python bool, or "unknown"); explanation is present only on the
successful path. -/
structure ClassifyOutput where
  error : Option String
  is_actionable : String
  confidence : ℚ
  factors : List (String × ℚ)
  explanation : Option Explanation
  deriving DecidableEq, Repr

/-- Sentinel dict returned when no model is available (lines 60-66). -/
def model_unavailable_result : ClassifyOutput :=
  { error := some "Model not available", is_actionable := "unknown",
    confidence := 0, factors := [], explanation := none }

/-- Degraded dict returned when prediction raises or has an unexpected
shape (lines 86-93). -/
def prediction_error_result : ClassifyOutput :=
  { error := some "Prediction error", is_actionable := "unknown",
    confidence := 0, factors := [], explanation := none }

/-- Tail of AlertClassifier.classify after a successful probability
extraction (lines 95-106): build the result dict, then attach the SHAP
explanation. The source guard original_result.get of "error" is always
None on this path, so the explanation call always runs; any exception it
raises propagates out of classify. -/
def classify_success (st1 : ClassifierState) (features : List (String × ℚ))
    (confidence : ℚ) : ClassifierState × Except String ClassifyOutput :=
  let original_result : ClassifyOutput :=
    { error := none,
      is_actionable := if st1.threshold < confidence then "True" else "False",
      confidence := confidence, factors := features, explanation := none }
  match explain_prediction st1 features with
  | (st2, Except.error e) => (st2, Except.error e)
  | (st2, Except.ok expl) =>
    (st2, Except.ok { original_result with explanation := some expl })

/-- Embedding of AlertClassifier.classify (lines 48-106). The pair holds
the updated instance state and either a raised exception or the returned
result dict. The feature_values list comprehension (line 72) sits outside
the try block, so a missing key raises; predict_proba failures and
unexpected prediction shapes are caught and degrade to the prediction
error dict; a one-entry probability is used directly and a two-entry
probability contributes its second entry. -/
def classify (fs : ModelFile) (st : ClassifierState)
    (search : String → Nat → List (SlackDoc × ℚ))
    (alert : AlertIn) (alert_stats : StatsIn) :
    ClassifierState × Except String ClassifyOutput :=
  let st1 := load_model fs st
  match st1.model with
  | none => (st1, Except.ok model_unavailable_result)
  | some m =>
    let features := engineer_features search alert alert_stats
    match m.feature_names_in.mapM (dictLookup features) with
    | none => (st1, Except.error "KeyError: feature missing from features dict")
    | some feature_values =>
      match m.predict_proba feature_values with
      | Except.error _ => (st1, Except.ok prediction_error_result)
      | Except.ok prediction =>
        match prediction with
        | [c] => classify_success st1 features c
        | [_, c] => classify_success st1 features c
        | _ => (st1, Except.ok prediction_error_result)

/-! Structured-output retry wrapper (agents/base.py). -/

/-- Raw model output with the structured-output parse attempt, as
produced by with_structured_output with include_raw (lines 38-46). -/
structure ToolOutput where
  raw : String
  parsed : Option String
  parsing_error : Option String
  deriving DecidableEq, Repr

/-- ValueError message raised on a schema parse failure (lines 73-75):
it carries the raw output and the parse error. -/
def parse_error_message (raw err : String) : String :=
  "Error parsing your output! Be sure to invoke the tool. Output: " ++ raw ++
    ". \n Parse error: " ++ err

/-- ValueError message raised when the model did not invoke the
structuring tool (lines 77-80); it carries no raw output. -/
def tool_not_invoked_message : String :=
  "You did not use the provided tool! Be sure to invoke the tool to structure the output."

/-- Embedding of BaseAgent.check_output (lines 56-81): a parse failure or
a missing tool invocation raises a ValueError, modelled as Except.error
with the raised message. -/
def check_output (tool_output : ToolOutput) : Except String ToolOutput :=
  match tool_output.parsing_error with
  | some err => Except.error (parse_error_message tool_output.raw err)
  | none =>
    match tool_output.parsed with
    | none => Except.error tool_not_invoked_message
    | some _ => Except.ok tool_output

/-- One conversation turn (role, content). -/
abbrev ChatMessage := String × String

/-- Embedding of BaseAgent.insert_errors (lines 83-101): append the
corrective retry turn stating the validation error to the running
conversation. -/
def insert_errors (error : String) (messages : List ChatMessage) : List ChatMessage :=
  messages ++ [("user",
    "Retry. You are required to fix the parsing errors: " ++ error ++
      "\n\nYou must provide a valid output.")]

/-- One pass of the chain (prompt then structured llm then check_output):
the model is invoked on the conversation and its output validated. -/
def run_once (invoke : List ChatMessage → ToolOutput)
    (messages : List ChatMessage) : Except String ToolOutput :=
  check_output (invoke messages)

/-- Fallback loop of with_fallbacks (lines 51-54), following langchain's
RunnableWithFallbacks semantics: each fallback first appends the retry
turn for the most recent error (the messages list is mutated in place by
the source, so retry turns accumulate across attempts) and then re-runs
the chain; once every fallback has failed, the first exception is
re-raised. first_error carries the first failed attempt's error and
last_error the most recent one; the second component counts model
invocations performed inside the loop. -/
def run_fallbacks (invoke : List ChatMessage → ToolOutput) :
    Nat → List ChatMessage → String → String → Except String ToolOutput × Nat
  | 0, _, first_error, _ => (Except.error first_error, 0)
  | n + 1, messages, first_error, last_error =>
    let messages1 := insert_errors last_error messages
    match run_once invoke messages1 with
    | Except.ok t => (Except.ok t, 1)
    | Except.error e =>
      let r := run_fallbacks invoke n messages1 first_error e
      (r.1, r.2 + 1)

/-- Embedding of chain_with_retry (lines 50-54): the main chain plus 3
fallbacks; the first failure seeds the fallback loop as both the first
and the most recent error. The second component is the total number of
model invocations. -/
def chain_with_retry (invoke : List ChatMessage → ToolOutput)
    (messages : List ChatMessage) : Except String ToolOutput × Nat :=
  match run_once invoke messages with
  | Except.ok t => (Except.ok t, 1)
  | Except.error e =>
    let r := run_fallbacks invoke 3 messages e e
    (r.1, r.2 + 1)

/-- Embedding of BaseAgent.run_chain (lines 112-127): invoke the chain
with retry and hand back the parsed field of the result. -/
def run_chain (invoke : List ChatMessage → ToolOutput)
    (messages : List ChatMessage) : Except String (Option String) :=
  ((chain_with_retry invoke messages).1).map ToolOutput.parsed

/-! LLM prediction service (ml/services/prediction.py). -/

/-- Outcome of AlertPredictor.predict (lines 154-163): either the parsed
JSON verdict or the degraded dict with the error and raw_output keys. -/
inductive PredictResult
  | parsed (verdict : String)
  | degraded (error : String) (raw_output : String)
  deriving DecidableEq, Repr

/-- Embedding of the response handling of AlertPredictor.predict (lines
154-163): one model call, json.loads on the completion (none models a
JSONDecodeError), and on failure a degraded dict carrying the error text
and the raw output is returned to the caller — no retry and no raised
exception. -/
def predict_parse (json_loads : String → Option String)
    (alert_prediction : String) : PredictResult :=
  match json_loads alert_prediction with
  | some verdict => PredictResult.parsed verdict
  | none => PredictResult.degraded "Failed to parse LLM output as JSON" alert_prediction

/-! Rule-based scorer. Modelled from the spec: the weighted deterministic
scorer of design section 4.4 is not part of the checked-in sources (only
the design document describes it), so its rules, score functions and
accumulation are taken from the specification text. -/

/-- Modelled from the spec: severity score map of section 4.4,
critical 0.9, high 0.7, medium 0.5, low 0.3 (the default 0 case of the
map is unreachable for the four-valued severity enum of the data
model). -/
noncomputable def severity_score : SeverityLevel → ℝ
  | SeverityLevel.critical => 0.9
  | SeverityLevel.high => 0.7
  | SeverityLevel.medium => 0.5
  | SeverityLevel.low => 0.3

/-- Modelled from the spec: open-alert-count score of section 4.4, 1 at
count 0 and 1/(1+ln count) otherwise. -/
noncomputable def open_alert_score (n : Nat) : ℝ :=
  if n = 0 then 1 else 1 / (1 + Real.log n)

/-- Modelled from the spec: mean-resolution-seconds score of section
4.4, the logistic curve centered at 3600 seconds. -/
noncomputable def resolution_score (t : ℝ) : ℝ :=
  1 / (1 + Real.exp (-(0.0001) * (t - 3600)))

/-- Modelled from the spec: prior-noisy score of section 4.4, 0.2 when
the configuration is already labelled noisy and 0.8 otherwise. -/
noncomputable def prior_noisy_score (b : Bool) : ℝ :=
  if b then 0.2 else 0.8

/-- Feature input of the rule-based scorer: each rule's
condition-extractor yields a value or is unavailable. -/
structure RuleFeatures where
  severity : Option SeverityLevel
  open_alert_count : Option Nat
  mean_resolution_seconds : Option ℝ
  prior_noisy : Option Bool

/-- Tunable positive weights of the four rules. -/
structure RuleWeights where
  w_severity : ℝ
  w_open : ℝ
  w_resolution : ℝ
  w_noisy : ℝ

/-- One rule applied to its optional input: the (score, weight)
contribution when the extractor yields a value, nothing otherwise. -/
noncomputable def opt_rule {α : Type} (v : Option α) (score : α → ℝ)
    (weight : ℝ) : List (ℝ × ℝ) :=
  match v with
  | some x => [(score x, weight)]
  | none => []

/-- Modelled from the spec: the fixed rule list of section 4.4 applied
to a feature input, collecting (score, weight) pairs of the rules that
fired. -/
noncomputable def fired_rules (w : RuleWeights) (f : RuleFeatures) : List (ℝ × ℝ) :=
  opt_rule f.severity severity_score w.w_severity ++
  opt_rule f.open_alert_count open_alert_score w.w_open ++
  opt_rule f.mean_resolution_seconds resolution_score w.w_resolution ++
  opt_rule f.prior_noisy prior_noisy_score w.w_noisy

/-- Accumulated score-times-weight total over the fired rules. -/
noncomputable def weighted_sum (l : List (ℝ × ℝ)) : ℝ :=
  (l.map (fun p => p.1 * p.2)).sum

/-- Accumulated weight total over the fired rules. -/
noncomputable def weight_sum (l : List (ℝ × ℝ)) : ℝ :=
  (l.map Prod.snd).sum

/-- Modelled from the spec: final confidence of section 4.4, the
weighted sum divided by the weight sum, and 0 when no rule fired. -/
noncomputable def rule_confidence (w : RuleWeights) (f : RuleFeatures) : ℝ :=
  if (fired_rules w f).isEmpty then 0
  else weighted_sum (fired_rules w f) / weight_sum (fired_rules w f)

/-! Concrete inputs used by closed theorems below. -/

/-- Concrete alert input. -/
def alert0 : AlertIn :=
  { title := "Critical Database Failure",
    description := some "Primary database is down",
    severity := SeverityLevel.critical, is_noisy := none, created_at := none }

/-- Concrete statistics input. -/
def stats0 : StatsIn :=
  { unique_open_alerts := 1, average_duration_seconds := 0, noisy_alerts_count := 0 }

/-- Vector-store search returning zero results (cold start). -/
def empty_search : String → Nat → List (SlackDoc × ℚ) := fun _ _ => []

/-- Model whose prediction succeeds but on which the TreeExplainer
constructor raises (a non-tree artifact). -/
def non_tree_model : MLModel :=
  { feature_names_in := ["severity_score"],
    predict_proba := fun _ => Except.ok [mkRat 1 4, mkRat 3 4],
    tree_explainer := none }

/-- The same model with a working TreeExplainer. -/
def tree_model : MLModel :=
  { feature_names_in := ["severity_score"],
    predict_proba := fun _ => Except.ok [mkRat 1 4, mkRat 3 4],
    tree_explainer := some { shap_values := fun _ => Except.ok [mkRat 1 10],
                             expected_value := 0 } }

/-- Freshly constructed classifier state with threshold 0.5 and nothing
loaded. -/
def fresh_state : ClassifierState :=
  { model := none, last_loaded_time := 0, explainer := none, threshold := mkRat 1 2 }

/-- Artifact file holding the given model, newer than any prior load. -/
def file_with (m : MLModel) : ModelFile :=
  { present := true, mtime := 1, load := some m }

/-- Missing artifact file. -/
def no_file : ModelFile :=
  { present := false, mtime := 0, load := none }

/-! Theorems. -/

/-- Claim C1: for every feedback event, record_feedback derives the
configuration's noisy label exactly by the four-case truth table, both in
the string-labelled slack.py path and in the boolean action-handler path:
actionable with approval gives not noisy, actionable with rejection gives
noisy, noisy with approval gives noisy, noisy with rejection gives not
noisy. -/
theorem record_feedback_truth_table :
    (handle_feedback_is_noisy "Actionable" true = false) ∧
    (handle_feedback_is_noisy "Actionable" false = true) ∧
    (handle_feedback_is_noisy "Potentially Noisy" true = true) ∧
    (handle_feedback_is_noisy "Potentially Noisy" false = false) ∧
    (action_handler_is_noisy true true = false) ∧
    (action_handler_is_noisy true false = true) ∧
    (action_handler_is_noisy false true = true) ∧
    (action_handler_is_noisy false false = false) := by
  decide

/-- Claim C3 counterexample: feedback with previous label noisy
("Potentially Noisy") and human approval on a configuration previously
not noisy yields is_noisy true, but the generated reason is
"User feedback: not noisy" — the wording follows the thumb direction and
not the derived flag, and the claimed form "User feedback: marked noisy"
is never produced. -/
theorem feedback_reason_mismatch :
    (handle_feedback true ⟨false, none⟩ "Potentially Noisy" true).is_noisy = true ∧
    (handle_feedback true ⟨false, none⟩ "Potentially Noisy" true).noisy_reason
      = some "User feedback: not noisy" ∧
    (handle_feedback true ⟨false, none⟩ "Potentially Noisy" true).noisy_reason
      ≠ some "User feedback: marked noisy" := by
  refine ⟨rfl, rfl, ?_⟩
  decide

/-- Claim C3 amended: record_feedback writes the derived is_noisy flag
onto the configuration, and a machine-generated reason of the form
"User feedback: noisy" or "User feedback: not noisy" (without "marked")
whose wording follows the direction of the thumb — noisy exactly when the
human rejected — and which is stored only when the derived flag is true
(otherwise the reason is cleared). In scenario C, feedback with previous
label noisy and human approval on a configuration previously not noisy
results in is_noisy true together with the stored reason
"User feedback: not noisy", which contains "noisy" as a substring. -/
theorem record_feedback_writes_flag_and_reason (cfg : AlertConfigState)
    (classification : String) (is_positive : Bool) :
    ((handle_feedback true cfg classification is_positive).is_noisy
        = handle_feedback_is_noisy classification is_positive) ∧
    ((handle_feedback true cfg classification is_positive).noisy_reason
        = if handle_feedback_is_noisy classification is_positive then
            some ("User feedback: " ++ (if is_positive then "not noisy" else "noisy"))
          else none) ∧
    (∃ s, (handle_feedback true ⟨false, none⟩ "Potentially Noisy" true).noisy_reason
        = some (s ++ "noisy")) := by
  refine ⟨rfl, rfl, ⟨"User feedback: not ", ?_⟩⟩
  decide

/-- Claim C4: record_feedback is idempotent — applying the same feedback
event twice (same classification label and thumb direction, same lookup
outcome) leaves the configuration in the same state as applying it
once. -/
theorem record_feedback_idempotent (found : Bool) (cfg : AlertConfigState)
    (classification : String) (is_positive : Bool) :
    handle_feedback found
        (handle_feedback found cfg classification is_positive)
        classification is_positive
      = handle_feedback found cfg classification is_positive := by
  cases found <;> rfl

/-- Claim C10: after every call to mark_alert_configuration_as_noisy that
finds the configuration, noisy_reason is non-null only if is_noisy is
true; in particular marking a configuration not noisy discards the
supplied reason and stores None. -/
theorem noisy_reason_only_if_noisy (cfg : AlertConfigState)
    (is_noisy : Bool) (reason : Option String) :
    ((mark_alert_configuration_as_noisy true cfg false reason).noisy_reason = none) ∧
    ((mark_alert_configuration_as_noisy true cfg is_noisy reason).noisy_reason ≠ none →
      (mark_alert_configuration_as_noisy true cfg is_noisy reason).is_noisy = true) := by
  refine ⟨rfl, ?_⟩
  cases is_noisy
  · intro h
    exact absurd rfl h
  · intro _
    rfl

/-- Claim C10 witness: marking a found configuration not noisy stores a
null reason, and a configuration whose stored reason is non-null was
marked noisy. -/
theorem noisy_reason_only_if_noisy_witness :
    ((mark_alert_configuration_as_noisy true ⟨true, some "old"⟩ false
        (some "dropped")).noisy_reason = none) ∧
    ((mark_alert_configuration_as_noisy true ⟨true, some "old"⟩ true
        (some "kept")).is_noisy = true) :=
  ⟨(noisy_reason_only_if_noisy ⟨true, some "old"⟩ true (some "dropped")).1,
   (noisy_reason_only_if_noisy ⟨true, some "old"⟩ true (some "kept")).2
     (by decide)⟩

/-- Claim C9: when the historical store similarity search returns zero
results, the average historical response depth is exactly the number 0,
and engineer_features produces the avg_slack_responses feature with value
0 rather than a missing value or an exception. -/
theorem avg_slack_responses_zero_on_empty (alert : AlertIn)
    (alert_stats : StatsIn) (query : String) :
    (get_avg_slack_responses empty_search query = 0) ∧
    (dictLookup (engineer_features empty_search alert alert_stats)
        "avg_slack_responses" = some 0) := by
  constructor
  · rfl
  · rfl

/-- Claim C9 witness: the cold-start behaviour evaluated on the concrete
alert and statistics inputs. -/
theorem avg_slack_responses_zero_on_empty_witness :
    (get_avg_slack_responses empty_search "Critical Database Failure" = 0) ∧
    (dictLookup (engineer_features empty_search alert0 stats0)
        "avg_slack_responses" = some 0) :=
  avg_slack_responses_zero_on_empty alert0 stats0 "Critical Database Failure"

/-- Claim C3 amended, witness: the amended statement evaluated at the
scenario-C input. -/
theorem record_feedback_writes_flag_and_reason_witness :
    ((handle_feedback true ⟨false, none⟩ "Potentially Noisy" true).is_noisy
        = handle_feedback_is_noisy "Potentially Noisy" true) ∧
    (∃ s, (handle_feedback true ⟨false, none⟩ "Potentially Noisy" true).noisy_reason
        = some (s ++ "noisy")) :=
  ⟨(record_feedback_writes_flag_and_reason ⟨false, none⟩ "Potentially Noisy" true).1,
   (record_feedback_writes_flag_and_reason ⟨false, none⟩ "Potentially Noisy" true).2.2⟩

/-- Claim C4 witness: replaying the scenario-C feedback event twice ends
in the same configuration state as applying it once. -/
theorem record_feedback_idempotent_witness :
    handle_feedback true
        (handle_feedback true ⟨false, none⟩ "Potentially Noisy" true)
        "Potentially Noisy" true
      = handle_feedback true ⟨false, none⟩ "Potentially Noisy" true :=
  record_feedback_idempotent true ⟨false, none⟩ "Potentially Noisy" true

/-- Claim C5: whenever the model artifact file is absent, or a reload is
due (the file's mtime advanced past the last load) and the load fails,
classify returns the sentinel unavailable result — label "unknown",
confidence 0 — and raises no exception. -/
theorem classify_unavailable_sentinel (fs : ModelFile) (st : ClassifierState)
    (search : String → Nat → List (SlackDoc × ℚ))
    (alert : AlertIn) (alert_stats : StatsIn)
    (h : fs.present = false ∨
      (st.last_loaded_time < fs.mtime ∧ fs.load = none)) :
    (classify fs st search alert alert_stats).2
      = Except.ok model_unavailable_result := by
  have hm : (load_model fs st).model = none := by
    rcases h with h | ⟨h1, h2⟩
    · simp [load_model, h]
    · by_cases hp : fs.present
      · simp [load_model, hp, h1, h2]
      · simp [load_model, hp]
  simp [classify, hm]

/-- Claim C5 witness: with no artifact file on disk, classify on the
concrete alert returns the sentinel unavailable result. -/
theorem classify_unavailable_sentinel_witness :
    (no_file.present = false) ∧
    ((classify no_file fresh_state empty_search alert0 stats0).2
      = Except.ok model_unavailable_result) :=
  ⟨rfl, classify_unavailable_sentinel no_file fresh_state empty_search alert0 stats0
    (Or.inl rfl)⟩

/-- Claim C6 (code bug): with a loaded model whose prediction succeeds
but on which the SHAP TreeExplainer constructor raises, classify
propagates the exception instead of degrading to an empty explanation —
the successful verdict (confidence 3/4, label "True", as returned when
the same prediction is paired with a working explainer) is lost. -/
theorem classify_explainer_failure_aborts :
    ((classify (file_with non_tree_model) fresh_state empty_search alert0 stats0).2
      = Except.error "TreeExplainer not applicable to the loaded model") ∧
    ((classify (file_with tree_model) fresh_state empty_search alert0 stats0).2
      = Except.ok
          { error := none, is_actionable := "True", confidence := mkRat 3 4,
            factors := engineer_features empty_search alert0 stats0,
            explanation := some (Explanation.shap [("severity_score", mkRat 1 10)] 0
              ["severity_score"]) }) := by
  constructor
  · rfl
  · rfl

/-- Successful validation returns its input unchanged, and that input
has no parse error and a parsed payload. -/
theorem check_output_ok_inv {x t : ToolOutput}
    (h : check_output x = Except.ok t) :
    x = t ∧ t.parsing_error = none ∧ t.parsed.isSome = true := by
  unfold check_output at h
  cases hpe : x.parsing_error with
  | some e => rw [hpe] at h; simp at h
  | none =>
    rw [hpe] at h
    cases hp : x.parsed with
    | none => rw [hp] at h; simp at h
    | some v =>
      rw [hp] at h
      simp at h
      subst h
      exact ⟨rfl, hpe, by rw [hp]; rfl⟩

/-- A successful single chain pass hands back an output that validates. -/
theorem run_once_ok {invoke : List ChatMessage → ToolOutput}
    {msgs : List ChatMessage} {t : ToolOutput}
    (h : run_once invoke msgs = Except.ok t) :
    check_output t = Except.ok t := by
  obtain ⟨hx, -, -⟩ := check_output_ok_inv h
  subst hx
  exact h

/-- A successful fallback loop hands back an output that validates. -/
theorem run_fallbacks_ok {invoke : List ChatMessage → ToolOutput} :
    ∀ {n : Nat} {msgs : List ChatMessage} {fe le : String} {t : ToolOutput},
      (run_fallbacks invoke n msgs fe le).1 = Except.ok t →
      check_output t = Except.ok t := by
  intro n
  induction n with
  | zero =>
    intro msgs fe le t h
    simp [run_fallbacks] at h
  | succ k ih =>
    intro msgs fe le t h
    simp only [run_fallbacks] at h
    cases hr : run_once invoke (insert_errors le msgs) with
    | ok u =>
      rw [hr] at h
      simp at h
      subst h
      exact run_once_ok hr
    | error e1 =>
      rw [hr] at h
      exact ih h

/-- An exhausted fallback loop re-raises exactly the first error it was
seeded with, regardless of the later attempts' errors. -/
theorem run_fallbacks_exhaustion {invoke : List ChatMessage → ToolOutput} :
    ∀ {n : Nat} {msgs : List ChatMessage} {fe le e : String},
      (run_fallbacks invoke n msgs fe le).1 = Except.error e → e = fe := by
  intro n
  induction n with
  | zero =>
    intro msgs fe le e h
    simp [run_fallbacks] at h
    exact h.symm
  | succ k ih =>
    intro msgs fe le e h
    simp only [run_fallbacks] at h
    cases hr : run_once invoke (insert_errors le msgs) with
    | ok u =>
      rw [hr] at h
      simp at h
    | error e1 =>
      rw [hr] at h
      exact ih h

/-- The fallback loop performs at most n model invocations. -/
theorem run_fallbacks_count {invoke : List ChatMessage → ToolOutput} :
    ∀ (n : Nat) (msgs : List ChatMessage) (fe le : String),
      (run_fallbacks invoke n msgs fe le).2 ≤ n := by
  intro n
  induction n with
  | zero =>
    intro msgs fe le
    simp [run_fallbacks]
  | succ k ih =>
    intro msgs fe le
    simp only [run_fallbacks]
    cases hr : run_once invoke (insert_errors le msgs) with
    | ok u =>
      simp
    | error e1 =>
      simp only []
      have := ih (insert_errors le msgs) fe e1
      omega

/-- Claim C2 amended: the BaseAgent call-with-validated-retry wrapper
performs at most 4 model invocations (the initial call plus 3 retries),
appends a corrective retry turn stating the most recent validation error
before every re-invocation, and returns an output only when validation
succeeded on it (no parse error and a parsed payload present); on
exhaustion it re-raises the first validation ValueError — the surfaced
error is exactly the validation error of the first invocation, whose
message carries that attempt's raw output and parse error when the
failure was a schema parse failure — but there is no distinct
StructuredOutputInvalid type, and the structured call made by
AlertPredictor.predict bypasses this wrapper entirely, returning a
degraded verdict dict on a parse failure (see the counterexample). -/
theorem chain_with_retry_spec :
    (∀ (invoke : List ChatMessage → ToolOutput) (messages : List ChatMessage),
      (chain_with_retry invoke messages).2 ≤ 4) ∧
    (∀ (invoke : List ChatMessage → ToolOutput) (messages : List ChatMessage)
      (t : ToolOutput), (chain_with_retry invoke messages).1 = Except.ok t →
      t.parsing_error = none ∧ t.parsed.isSome = true) ∧
    (∀ (invoke : List ChatMessage → ToolOutput) (messages : List ChatMessage)
      (e : String), (chain_with_retry invoke messages).1 = Except.error e →
      check_output (invoke messages) = Except.error e) ∧
    (∀ raw err : String,
      check_output { raw := raw, parsed := none, parsing_error := some err }
        = Except.error (parse_error_message raw err)) ∧
    (∀ (err : String) (messages : List ChatMessage),
      insert_errors err messages = messages ++
        [("user", "Retry. You are required to fix the parsing errors: " ++ err ++
          "\n\nYou must provide a valid output.")]) := by
  refine ⟨?_, ?_, ?_, fun raw err => rfl, fun err messages => rfl⟩
  · intro invoke messages
    simp only [chain_with_retry]
    cases hr : run_once invoke messages with
    | ok t =>
      simp
    | error e =>
      simp only []
      have := @run_fallbacks_count invoke 3 messages e e
      omega
  · intro invoke messages t h
    simp only [chain_with_retry] at h
    cases hr : run_once invoke messages with
    | ok u =>
      rw [hr] at h
      simp at h
      subst h
      exact (check_output_ok_inv (run_once_ok hr)).2
    | error e =>
      rw [hr] at h
      exact (check_output_ok_inv (run_fallbacks_ok h)).2
  · intro invoke messages e h
    simp only [chain_with_retry] at h
    cases hr : run_once invoke messages with
    | ok u =>
      rw [hr] at h
      simp at h
    | error e0 =>
      rw [hr] at h
      rw [run_fallbacks_exhaustion h]
      exact hr

/-- Valid structured output used by the witness below. -/
def good_output : ToolOutput :=
  { raw := "raw", parsed := some "verdict", parsing_error := none }

/-- Model stub that always answers with a valid structured output. -/
def good_invoke : List ChatMessage → ToolOutput :=
  fun _ => good_output

/-- Model stub that always fails schema parsing. -/
def bad_invoke : List ChatMessage → ToolOutput :=
  fun _ => { raw := "bad output", parsed := none, parsing_error := some "boom" }

/-- Claim C2 amended, witness: the wrapper evaluated on concrete model
stubs — a valid output is returned with its validation facts, the
invocation count stays within budget, and a persistent parse failure
surfaces exactly the first invocation's validation error. -/
theorem chain_with_retry_spec_witness :
    ((chain_with_retry good_invoke []).2 ≤ 4) ∧
    (good_output.parsing_error = none ∧ good_output.parsed.isSome = true) ∧
    (check_output (bad_invoke [])
      = Except.error (parse_error_message "bad output" "boom")) :=
  ⟨chain_with_retry_spec.1 good_invoke [],
   chain_with_retry_spec.2.1 good_invoke [] good_output rfl,
   chain_with_retry_spec.2.2.1 bad_invoke []
     (parse_error_message "bad output" "boom") rfl⟩

/-- Claim C2 counterexample: the structured-output model call made by
AlertPredictor.predict does not go through the validated-retry wrapper —
on a completion that fails JSON validation it performs no retry and
returns a degraded verdict dict carrying the error text and the raw
output, instead of surfacing a typed error. -/
theorem predict_returns_degraded_verdict :
    predict_parse (fun _ => none) "I am not JSON"
      = PredictResult.degraded "Failed to parse LLM output as JSON"
          "I am not JSON" := rfl

/-- Each severity bucket scores in the interval (0, 1]. -/
theorem severity_score_bounds (s : SeverityLevel) :
    0 < severity_score s ∧ severity_score s ≤ 1 := by
  cases s <;> norm_num [severity_score]

/-- The open-alert-count score lies in (0, 1]. -/
theorem open_alert_score_bounds (n : Nat) :
    0 < open_alert_score n ∧ open_alert_score n ≤ 1 := by
  unfold open_alert_score
  by_cases h : n = 0
  · simp [h]
  · rw [if_neg h]
    have h1 : (1:ℝ) ≤ (n:ℝ) := by
      have hn : 1 ≤ n := Nat.one_le_iff_ne_zero.mpr h
      exact_mod_cast hn
    have hlog : 0 ≤ Real.log n := Real.log_nonneg h1
    have hden : 0 < 1 + Real.log n := by linarith
    constructor
    · exact div_pos one_pos hden
    · rw [div_le_one hden]
      linarith

/-- The resolution-time logistic score lies in (0, 1]. -/
theorem resolution_score_bounds (t : ℝ) :
    0 < resolution_score t ∧ resolution_score t ≤ 1 := by
  unfold resolution_score
  have he : 0 < Real.exp (-(0.0001) * (t - 3600)) := Real.exp_pos _
  have hden : 0 < 1 + Real.exp (-(0.0001) * (t - 3600)) := by linarith
  constructor
  · exact div_pos one_pos hden
  · rw [div_le_one hden]
    linarith

/-- The prior-noisy score lies in (0, 1]. -/
theorem prior_noisy_score_bounds (b : Bool) :
    0 < prior_noisy_score b ∧ prior_noisy_score b ≤ 1 := by
  cases b <;> norm_num [prior_noisy_score]

/-- A rule contribution list is empty exactly when the rule input is
absent. -/
theorem opt_rule_nil {α : Type} (v : Option α) (score : α → ℝ) (weight : ℝ) :
    opt_rule v score weight = [] ↔ v = none := by
  cases v <;> simp [opt_rule]

/-- Every contribution of a fired rule has a score in (0, 1] and a
positive weight, whenever its weight is positive and its score function
is bounded. -/
theorem opt_rule_mem {α : Type} (v : Option α) (score : α → ℝ) (weight : ℝ)
    (hs : ∀ x, 0 < score x ∧ score x ≤ 1) (hw : 0 < weight) :
    ∀ p ∈ opt_rule v score weight, 0 < p.1 ∧ p.1 ≤ 1 ∧ 0 < p.2 := by
  cases v with
  | none =>
    intro p hp
    simp [opt_rule] at hp
  | some x =>
    intro p hp
    simp only [opt_rule, List.mem_singleton] at hp
    subst hp
    exact ⟨(hs x).1, (hs x).2, hw⟩

/-- Over contributions with scores in (0, 1] and positive weights, the
weighted total is nonnegative and at most the weight total, and both are
positive as soon as one contribution exists. -/
theorem sum_bounds :
    ∀ l : List (ℝ × ℝ), (∀ p ∈ l, 0 < p.1 ∧ p.1 ≤ 1 ∧ 0 < p.2) →
      0 ≤ weighted_sum l ∧ weighted_sum l ≤ weight_sum l ∧
        (l ≠ [] → 0 < weighted_sum l ∧ 0 < weight_sum l) := by
  intro l
  induction l with
  | nil =>
    intro _
    refine ⟨le_refl 0, le_refl 0, fun hc => absurd rfl hc⟩
  | cons p rest ih =>
    intro h
    obtain ⟨h1, h2, h3⟩ := h p (List.mem_cons_self p rest)
    obtain ⟨ih1, ih2, -⟩ := ih (fun q hq => h q (List.mem_cons_of_mem p hq))
    have hpos : 0 < p.1 * p.2 := mul_pos h1 h3
    have hle : p.1 * p.2 ≤ p.2 := by nlinarith
    have e1 : weighted_sum (p :: rest) = p.1 * p.2 + weighted_sum rest := rfl
    have e2 : weight_sum (p :: rest) = p.2 + weight_sum rest := rfl
    rw [e1, e2]
    refine ⟨by linarith, by linarith, fun _ => ⟨by linarith, by linarith⟩⟩

/-- The fired-rule list is empty exactly when no extractor yields a
value. -/
theorem fired_rules_nil (w : RuleWeights) (f : RuleFeatures) :
    fired_rules w f = [] ↔
      f.severity = none ∧ f.open_alert_count = none ∧
        f.mean_resolution_seconds = none ∧ f.prior_noisy = none := by
  unfold fired_rules
  simp [List.append_eq_nil, opt_rule_nil]

/-- With positive weights, every fired-rule contribution is
well-bounded. -/
theorem fired_rules_mem (w : RuleWeights) (f : RuleFeatures)
    (hw : 0 < w.w_severity ∧ 0 < w.w_open ∧ 0 < w.w_resolution ∧ 0 < w.w_noisy) :
    ∀ p ∈ fired_rules w f, 0 < p.1 ∧ p.1 ≤ 1 ∧ 0 < p.2 := by
  intro p hp
  unfold fired_rules at hp
  simp only [List.mem_append] at hp
  rcases hp with ((hp | hp) | hp) | hp
  · exact opt_rule_mem _ _ _ (fun x => severity_score_bounds x) hw.1 p hp
  · exact opt_rule_mem _ _ _ (fun x => open_alert_score_bounds x) hw.2.1 p hp
  · exact opt_rule_mem _ _ _ (fun x => resolution_score_bounds x) hw.2.2.1 p hp
  · exact opt_rule_mem _ _ _ (fun x => prior_noisy_score_bounds x) hw.2.2.2 p hp

/-- Claim C7: for every feature input and positive rule weights, the
rule-based final confidence — the sum of score times weight over fired
rules divided by the sum of their weights — lies in the closed interval
from 0 to 1, and equals 0 exactly when no rule extractor yields a
value. -/
theorem rule_confidence_bounds (w : RuleWeights) (f : RuleFeatures)
    (hw : 0 < w.w_severity ∧ 0 < w.w_open ∧ 0 < w.w_resolution ∧ 0 < w.w_noisy) :
    0 ≤ rule_confidence w f ∧ rule_confidence w f ≤ 1 ∧
      (rule_confidence w f = 0 ↔
        f.severity = none ∧ f.open_alert_count = none ∧
          f.mean_resolution_seconds = none ∧ f.prior_noisy = none) := by
  have hmem := fired_rules_mem w f hw
  rw [← fired_rules_nil w f]
  unfold rule_confidence
  cases hl : fired_rules w f with
  | nil =>
    simp
  | cons p rest =>
    rw [hl] at hmem
    obtain ⟨hb1, hb2, hb3⟩ := sum_bounds (p :: rest) hmem
    obtain ⟨hws, hwt⟩ := hb3 (List.cons_ne_nil p rest)
    have hcond : ¬((p :: rest : List (ℝ × ℝ)).isEmpty = true) := by simp
    rw [if_neg hcond]
    refine ⟨div_nonneg hb1 (le_of_lt hwt), (div_le_one hwt).mpr hb2, ?_⟩
    have hpos : 0 < weighted_sum (p :: rest) / weight_sum (p :: rest) :=
      div_pos hws hwt
    constructor
    · intro h0
      rw [h0] at hpos
      exact absurd hpos (lt_irrefl 0)
    · intro h0
      exact absurd h0 (List.cons_ne_nil p rest)

/-- Concrete positive rule weights. -/
def unit_weights : RuleWeights :=
  { w_severity := 1, w_open := 1, w_resolution := 1, w_noisy := 1 }

/-- Concrete feature input where only the severity extractor yields a
value. -/
def severity_only : RuleFeatures :=
  { severity := some SeverityLevel.critical, open_alert_count := none,
    mean_resolution_seconds := none, prior_noisy := none }

/-- Claim C7 witness: the bounds evaluated at unit weights on an input
where exactly the severity rule fires. -/
theorem rule_confidence_bounds_witness :
    (0 < unit_weights.w_severity ∧ 0 < unit_weights.w_open ∧
      0 < unit_weights.w_resolution ∧ 0 < unit_weights.w_noisy) ∧
    (0 ≤ rule_confidence unit_weights severity_only ∧
      rule_confidence unit_weights severity_only ≤ 1 ∧
      (rule_confidence unit_weights severity_only = 0 ↔
        severity_only.severity = none ∧
          severity_only.open_alert_count = none ∧
          severity_only.mean_resolution_seconds = none ∧
          severity_only.prior_noisy = none)) :=
  ⟨⟨one_pos, one_pos, one_pos, one_pos⟩,
   rule_confidence_bounds unit_weights severity_only
     ⟨one_pos, one_pos, one_pos, one_pos⟩⟩

/-- Claim C8: the open-alert-count score equals 1 at count 0, is given
by 1/(1+ln count) for every count at least 1, and is strictly decreasing
on counts at least 1. -/
theorem open_alert_score_shape :
    open_alert_score 0 = 1 ∧
    (∀ n : Nat, 1 ≤ n → open_alert_score n = 1 / (1 + Real.log n)) ∧
    (∀ n m : Nat, 1 ≤ n → n < m →
      open_alert_score m < open_alert_score n) := by
  refine ⟨by simp [open_alert_score], ?_, ?_⟩
  · intro n hn
    have h0 : n ≠ 0 := by omega
    simp [open_alert_score, h0]
  · intro n m hn hnm
    have hn0 : n ≠ 0 := by omega
    have hm0 : m ≠ 0 := by omega
    unfold open_alert_score
    rw [if_neg hn0, if_neg hm0]
    have h1 : (1:ℝ) ≤ (n:ℝ) := by exact_mod_cast hn
    have hcast : (n:ℝ) < (m:ℝ) := by exact_mod_cast hnm
    have hlt : Real.log n < Real.log m := Real.log_lt_log (by linarith) hcast
    have hdn : 0 < 1 + Real.log n := by
      have hnn := Real.log_nonneg h1
      linarith
    exact one_div_lt_one_div_of_lt hdn (by linarith)

/-- Claim C8 witness: the closed form at count 1 and the strict drop
from count 1 to count 2. -/
theorem open_alert_score_shape_witness :
    (1 ≤ 1 ∧ open_alert_score 1 = 1 / (1 + Real.log ((1:Nat) : ℝ))) ∧
    (1 ≤ 1 ∧ 1 < 2 ∧ open_alert_score 2 < open_alert_score 1) :=
  ⟨⟨le_refl 1, open_alert_score_shape.2.1 1 (le_refl 1)⟩,
   ⟨le_refl 1, by omega,
    open_alert_score_shape.2.2 1 2 (le_refl 1) (by omega)⟩⟩

end Opslane

